import Mathlib

/-!
# roturLink hub: shallow embedding and verification

A shallow embedding of the telemetry/command hub of the roturLink agent
(`linker.py`, `platforms/macosLink.py`, `platforms/archLink.py`), with
theorems settling the specified behaviour of its access policy, origin
refresh, command runner, metrics cache, command dispatcher, connection
registry broadcast, drive-change monitor and producer scheduling.

State that Python mutates in place (the allowed-origin list, the metrics
cache, the client registry, the drive monitor's previous-identifier set)
is threaded explicitly; results of OS calls (subprocess runs, psutil
readings, pulse/osascript outcomes) are parameters of the embedded
functions, so that each embedded function is the pure step the Python
coroutine performs between two awaits.
-/

namespace RoturLink

/-- JSON-like values as produced by Python's `json.loads`: `None`, booleans,
numbers (modelled as integers), strings, lists, and dicts (assoc lists with
distinct keys). -/
inductive J where
  | null
  | b (v : Bool)
  | n (v : Int)
  | s (v : String)
  | arr (xs : List J)
  | obj (fields : List (String × J))
deriving Repr

mutual

/-- Structural equality of parsed-JSON values, modelling Python `==` on the
results of `json.loads`.  (Python's cross-type quirk `True == 1` is not
modelled; no origin document or claim depends on it.) -/
def jeq : J → J → Bool
  | .null, .null => true
  | .b x, .b y => x == y
  | .n x, .n y => x == y
  | .s x, .s y => x == y
  | .arr xs, .arr ys => jeqList xs ys
  | .obj xs, .obj ys => jeqFields xs ys
  | _, _ => false

def jeqList : List J → List J → Bool
  | [], [] => true
  | x :: xs, y :: ys => jeq x y && jeqList xs ys
  | _, _ => false

def jeqFields : List (String × J) → List (String × J) → Bool
  | [], [] => true
  | (k, v) :: xs, (k', v') :: ys => k == k' && jeq v v' && jeqFields xs ys
  | _, _ => false

end

/-- Python `x in l` for a list of parsed-JSON values. -/
def jmem (x : J) (l : List J) : Bool :=
  l.any (fun y => jeq x y)

/-- Python `dict.get(key)`: the value stored at `k`, if any. -/
def getKey (fields : List (String × J)) (k : String) : Option J :=
  match fields.find? (fun kv => kv.1 == k) with
  | some kv => some kv.2
  | none => none

/-- Python truthiness of a parsed-JSON value (`bool(x)`). -/
def falsy : J → Bool
  | .null => true
  | .b v => !v
  | .n i => i == 0
  | .s v => v == ""
  | .arr xs => xs.isEmpty
  | .obj f => f.isEmpty

/-- `type(x).__name__` for a parsed-JSON value, as used in Python error
messages such as `'int' object has no attribute 'get'`. -/
def pyTypeName : J → String
  | .null => "NoneType"
  | .b _ => "bool"
  | .n _ => "int"
  | .s _ => "str"
  | .arr _ => "list"
  | .obj _ => "dict"

mutual

/-- Python `repr(x)` for a parsed-JSON value (strings quoted).  Exact only
for scalars and simple containers; string escaping inside containers is not
reproduced.  No theorem depends on the container cases. -/
def pyRepr : J → String
  | .null => "None"
  | .b true => "True"
  | .b false => "False"
  | .n i => toString i
  | .s v => "'" ++ v ++ "'"
  | .arr xs => "[" ++ pyReprList xs ++ "]"
  | .obj f => "\x7b" ++ pyReprFields f ++ "\x7d"

def pyReprList : List J → String
  | [] => ""
  | [x] => pyRepr x
  | x :: xs => pyRepr x ++ ", " ++ pyReprList xs

def pyReprFields : List (String × J) → String
  | [] => ""
  | [(k, v)] => "'" ++ k ++ "': " ++ pyRepr v
  | (k, v) :: xs => "'" ++ k ++ "': " ++ pyRepr v ++ ", " ++ pyReprFields xs

end

/-- Python `str(x)`: like `repr` except that strings are unquoted, as in the
f-string `f"Unknown command: {cmd}"`. -/
def pyStr : J → String
  | .s v => v
  | x => pyRepr x

/-- `str(x)` where `x` may be `None` because `dict.get` missed. -/
def pyStrOpt : Option J → String
  | none => "None"
  | some x => pyStr x

/-- Python `s.startswith(pre)`: a character-prefix test.  (Lean's
`String.startsWith` has the same meaning but its byte-level implementation
does not reduce in proofs; the character-list form computes.) -/
def py_startswith (s pre : String) : Bool :=
  pre.data.isPrefixOf s.data

/-- Python `s.strip()`: surrounding whitespace removed.  (Python also
strips `\f`/`\v`, which `Char.isWhitespace` omits; no input in scope
contains them.) -/
def py_strip (s : String) : String :=
  String.mk
    (((s.data.dropWhile Char.isWhitespace).reverse.dropWhile Char.isWhitespace).reverse)

/-- Decimal value of a digit run (`none` on a non-digit). -/
def py_digits_core : List Char → Nat → Option Nat
  | [], acc => some acc
  | c :: rest, acc =>
      if c.isDigit then py_digits_core rest (10 * acc + (c.toNat - 48)) else none

/-- Decimal value of a non-empty digit string. -/
def py_digits (cs : List Char) : Option Nat :=
  if cs.isEmpty then none else py_digits_core cs 0

/-- Python `int(str)`: optional surrounding whitespace and a leading `+` or
`-` on a non-empty run of decimal digits; anything else raises
`ValueError` (`none`).  (Numeric-literal underscores are not modelled.) -/
def pyStrToInt (str : String) : Option Int :=
  match (py_strip str).data with
  | '-' :: rest => (py_digits rest).map (fun nv => -(nv : Int))
  | '+' :: rest => (py_digits rest).map (fun nv => (nv : Int))
  | cs => (py_digits cs).map (fun nv => (nv : Int))

/-- Python `int(x)` on a parsed-JSON value: `none` models the call raising
(`ValueError` for bad strings, `TypeError` for `None`/lists/dicts).  Note
`int(True) = 1`.  Floats are already modelled as integers. -/
def pyToInt : J → Option Int
  | .n i => some i
  | .b true => some 1
  | .b false => some 0
  | .s str => pyStrToInt str
  | _ => none

/-- `str(e)` for the exception raised by `int(x)` on a bad argument.  The
exact text is CPython's and version-dependent; no theorem depends on it. -/
def int_error_message (v : J) : String :=
  match v with
  | .s str => "invalid literal for int() with base 10: '" ++ str ++ "'"
  | v => "int() argument must be a string, a bytes-like object or a real number, not '"
      ++ pyTypeName v ++ "'"

/-! ## Access policy (`is_origin_allowed` / `isAllowed`)

The allowed-origin state `ALLOWED_ORIGINS` is a Python list holding the
parsed-JSON origin strings; it is modelled as `List J` because a remote
document may (pathologically) put non-strings in its `origins` array. -/

/-- Baseline `ALLOWED_ORIGINS` compiled into `linker.py` (line 128). -/
def LINKER_BASE_ORIGINS : List J :=
  [J.s "https://turbowarp.org", J.s "https://origin.mistium.com",
   J.s "http://localhost:5001", J.s "http://localhost:5002"]

/-- `CONFIG["allowed_origins"]` of `macosLink.py` (lines 8-17) and
`archLink.py` (lines 17-26); also each variant's initial `ALLOWED_ORIGINS`. -/
def CONFIG_ALLOWED_ORIGINS : List String :=
  ["https://turbowarp.org", "https://origin.mistium.com",
   "http://localhost:5001", "http://localhost:5002", "http://localhost:3000",
   "http://127.0.0.1:5001", "http://127.0.0.1:5002", "http://127.0.0.1:3000"]

/-- `is_origin_allowed` of `linker.py` (lines 150-151).  The source line is
`return origin.startswith("http://localhost:") or origin in ALLOWED_ORIGINS
or True`: the final disjunct is the literal `True`. -/
def linker_is_origin_allowed (origin : String) (allowed : List J) : Bool :=
  py_startswith origin "http://localhost:" || jmem (J.s origin) allowed || true

/-- `isAllowed` of `linker.py` (lines 153-155): loopback remote address or
`is_origin_allowed` on the `Origin` header (missing header reads as ""). -/
def linker_isAllowed (remoteAddr origin : String) (allowed : List J) : Bool :=
  remoteAddr == "127.0.0.1" || remoteAddr == "::1"
    || linker_is_origin_allowed origin allowed

/-- Admission decision of the WebSocket `handler` of `linker.py` (lines
434-446): the connection is registered iff `is_origin_allowed(origin)`.
The `is_local` flag computed on line 440 is never used in the decision. -/
def linker_handler_admits (origin : String) (allowed : List J) : Bool :=
  linker_is_origin_allowed origin allowed

/-- `is_origin_allowed` of `macosLink.py` (lines 146-149): an empty origin is
refused, otherwise a `http://localhost:<port>` or `http://127.0.0.1:<port>`
prefix or verbatim membership in `ALLOWED_ORIGINS` admits. -/
def macos_is_origin_allowed (origin : String) (allowed : List J) : Bool :=
  if origin == "" then false
  else py_startswith origin "http://localhost:" || py_startswith origin "http://127.0.0.1:"
    || jmem (J.s origin) allowed

/-- `isAllowed` of `macosLink.py` (lines 1281-1283); the WebSocket
`handler` (line 1241) applies the same loopback-or-origin disjunction. -/
def macos_isAllowed (remoteAddr origin : String) (allowed : List J) : Bool :=
  remoteAddr == "127.0.0.1" || remoteAddr == "::1"
    || macos_is_origin_allowed origin allowed

/-- `is_origin_allowed` of `archLink.py` (lines 104-105): no `127.0.0.1`
prefix bypass and no empty-origin guard. -/
def arch_is_origin_allowed (origin : String) (allowed : List J) : Bool :=
  py_startswith origin "http://localhost:" || jmem (J.s origin) allowed

/-! ## Allowed-origin refresh (`fetch_allowed_origins`) -/

/-- Is a parsed-JSON value hashable in Python (usable as a `set` element)?
Lists and dicts are not; putting one in `set(...)` raises `TypeError`. -/
def hashable : J → Bool
  | .arr _ => false
  | .obj _ => false
  | _ => true

/-- Python `list(set(xs))`: duplicate removal.  A Python set iterates in an
unspecified order; the model keeps the first occurrence of each element,
which has the same membership. -/
def pySetList (xs : List J) : List J :=
  xs.foldl (fun acc x => if jmem x acc then acc else acc ++ [x]) []

/-- `fetch_allowed_origins` of `macosLink.py` (lines 135-144).
`response = none` models the GET or `response.json()` raising (network
error, non-JSON body): the bare `except` swallows it and the state is
untouched.  On a parsed document, only a dict with an `"origins"` key whose
value is a list of hashable values reaches the assignment
`ALLOWED_ORIGINS = list(set(origins_data["origins"] + CONFIG["allowed_origins"]))`;
a non-list value makes the `+` raise and an unhashable element makes
`set` raise, both caught, leaving the state untouched. -/
def macos_fetch_allowed_origins (prior : List J) (response : Option J) : List J :=
  match response with
  | none => prior
  | some (J.obj fields) =>
    match getKey fields "origins" with
    | some (J.arr xs) =>
        if xs.all hashable then pySetList (xs ++ CONFIG_ALLOWED_ORIGINS.map J.s)
        else prior
    | some _ => prior
    | none => prior
  | some _ => prior

/-- The two local-development origins `linker.py` always re-appends
(line 140). -/
def LINKER_LOCAL_ORIGINS : List String :=
  ["http://localhost:5001", "http://localhost:5002"]

/-- `fetch_allowed_origins` of `linker.py` (lines 133-148): on a dict with
an `"origins"` list, each missing local-development origin is appended (the
membership test runs against the partially extended list) and the result
replaces `ALLOWED_ORIGINS`; otherwise the state is untouched.  For a
non-list `"origins"` value the `in`/`append` calls raise (caught, state
untouched) — except the unreachable-in-practice corner of a string
containing both local URLs as substrings, which would store a non-list
value and is outside this model's `List J` state. -/
def linker_fetch_allowed_origins (prior : List J) (response : Option J) : List J :=
  match response with
  | none => prior
  | some (J.obj fields) =>
    match getKey fields "origins" with
    | some (J.arr xs) =>
        LINKER_LOCAL_ORIGINS.foldl
          (fun acc l => if jmem (J.s l) acc then acc else acc ++ [J.s l]) xs
    | some _ => prior
    | none => prior
  | some _ => prior

/-! ## Command runner (`run_command`) -/

/-- What happened to the `subprocess.run` call inside `run_command`:
it completed (any exit code), raised `subprocess.TimeoutExpired`, raised
`FileNotFoundError`, or raised some other exception with message `msg`. -/
inductive ExecOutcome where
  | completed (stdout stderr : String) (returncode : Int)
  | timedOut
  | notFound
  | failed (msg : String)
deriving DecidableEq, Repr

/-- The dict `run_command` returns.  `none` fields model keys absent from
the Python dict (the failure dicts of `archLink.py` carry no
`stdout`/`stderr`/`returncode` keys; those of `macosLink.py` carry empty
`stdout`/`stderr` but no `returncode`). -/
structure CmdResult where
  success : Bool
  stdout : Option String
  stderr : Option String
  returncode : Option Int
  error : Option String
deriving DecidableEq, Repr

/-- `run_command` of `archLink.py` (lines 107-117).  `cmd.headD ""` mirrors
`cmd[0] if isinstance(cmd, list) else cmd` (the `FileNotFoundError` branch
presupposes a non-empty command).  Python `.strip()` is modelled by
`py_strip`. -/
def arch_run_command (cmd : List String) (timeout : Nat) (outcome : ExecOutcome) :
    CmdResult :=
  match outcome with
  | .completed out err rc =>
      { success := rc == 0, stdout := some (py_strip out), stderr := some (py_strip err),
        returncode := some rc, error := none }
  | .timedOut =>
      { success := false, stdout := none, stderr := none, returncode := none,
        error := some ("Command timeout (" ++ toString timeout ++ "s)") }
  | .notFound =>
      { success := false, stdout := none, stderr := none, returncode := none,
        error := some ("Command not found: " ++ cmd.headD "") }
  | .failed msg =>
      { success := false, stdout := none, stderr := none, returncode := none,
        error := some msg }

/-- The non-cached core of `run_command` of `macosLink.py` (lines 157-181):
same structure as the Arch variant but failure dicts carry empty
`stdout`/`stderr` strings and the timeout message differs. -/
def macos_run_command (cmd : List String) (timeout : Nat) (outcome : ExecOutcome) :
    CmdResult :=
  match outcome with
  | .completed out err rc =>
      { success := rc == 0, stdout := some (py_strip out), stderr := some (py_strip err),
        returncode := some rc, error := none }
  | .timedOut =>
      { success := false, stdout := some "", stderr := some "", returncode := none,
        error := some ("Timeout (" ++ toString timeout ++ "s)") }
  | .notFound =>
      { success := false, stdout := some "", stderr := some "", returncode := none,
        error := some ("Command not found: " ++ cmd.headD "") }
  | .failed msg =>
      { success := false, stdout := some "", stderr := some "", returncode := none,
        error := some msg }

/-- `run_command` of `macosLink.py` with its cache layer (lines 151-181):
a cache entry younger than `CACHE_TTL = 5` seconds short-circuits; a
completed run under a cache key is stored (newest entry first, mirroring
dict overwrite).  Exception results are not cached (the store sits inside
the `try`). -/
def macos_run_command_cached (cache : List (String × CmdResult × Int)) (now : Int)
    (cacheKey : Option String) (cmd : List String) (timeout : Nat)
    (outcome : ExecOutcome) : CmdResult × List (String × CmdResult × Int) :=
  let hit : Option CmdResult :=
    match cacheKey with
    | some k =>
      match cache.find? (fun entry => entry.1 == k) with
      | some entry => if now - entry.2.2 < 5 then some entry.2.1 else none
      | none => none
    | none => none
  match hit with
  | some r => (r, cache)
  | none =>
    let result := macos_run_command cmd timeout outcome
    match cacheKey, outcome with
    | some k, .completed _ _ _ => (result, (k, result, now) :: cache)
    | _, _ => (result, cache)

/-! ## Metrics cache (`system_metrics_cache` / `get_system_metrics`) -/

/-- The fields of `system_metrics_cache` the embedded functions touch
(macosLink lines 106-125, archLink line 88).  Values are kept as parsed-JSON
values; the `last_*` stamps are epoch seconds. -/
structure Cache where
  cpu_percent : J
  memory : J
  disk : J
  network : J
  battery : J
  wifi : J
  brightness : J
  volume : J
  drives : J
  bluetooth : J
  last_basic_update : Int
  last_disk_update : Int
  last_battery_update : Int
  last_wifi_update : Int
  last_controls_update : Int
deriving Repr

/-- `get_system_metrics` of `macosLink.py` (lines 187-199) and `archLink.py`
(lines 123-135): both build the same snapshot dict from the cache plus a
fresh `time.time()` stamp (`now`).  The `.get` defaults in the source never
apply because every key is present in the initial cache dict. -/
def get_system_metrics (c : Cache) (now : Int) : J :=
  J.obj [
    ("cpu", J.obj [("percent", c.cpu_percent)]),
    ("memory", c.memory),
    ("disk", c.disk),
    ("network", c.network),
    ("battery", c.battery),
    ("wifi", c.wifi),
    ("brightness", c.brightness),
    ("volume", c.volume),
    ("drives", c.drives),
    ("timestamp", J.n now)]

/-- Field access on a JSON dict value (`none` on non-dicts). -/
def jGet (v : J) (k : String) : Option J :=
  match v with
  | .obj fields => getKey fields k
  | _ => none

/-- A snapshot with its `"timestamp"` entry removed, for comparing the
cache-derived portion of two `get_system_metrics` payloads. -/
def dropTimestamp : J → J
  | .obj fields => .obj (fields.filter (fun kv => !(kv.1 == "timestamp")))
  | v => v

/-! ## Volume and brightness setters -/

/-- `set_volume_sync` of `macosLink.py` (lines 623-627).  `int(percentage)`
sits outside any `try`: a non-convertible value makes the call raise
(`none`), which propagates to `handle_command`'s generic handler.  `osOk`
is whether the `osascript` run succeeded. -/
def macos_set_volume_sync (osOk : Bool) (v : J) : Option J :=
  (pyToInt v).map (fun i =>
    let p := max 0 (min 100 i)
    if osOk then J.obj [("success", J.b true), ("volume", J.n p)]
    else J.obj [("success", J.b false), ("error", J.s "Failed")])

/-- `set_volume_sync` of `archLink.py` (lines 282-296): same unguarded
`int(percentage)`; a successful pulse or `amixer` path returns the same
success dict, failure returns `"Volume set failed"`. -/
def arch_set_volume_sync (osOk : Bool) (v : J) : Option J :=
  (pyToInt v).map (fun i =>
    let p := max 0 (min 100 i)
    if osOk then J.obj [("success", J.b true), ("volume", J.n p)]
    else J.obj [("success", J.b false), ("error", J.s "Volume set failed")])

/-- `set_brightness` of `macosLink.py` (lines 593-600): unguarded
`int(percentage)` clamped to `[1, 100]`. -/
def macos_set_brightness (osOk : Bool) (v : J) : Option J :=
  (pyToInt v).map (fun i =>
    let p := max 1 (min 100 i)
    if osOk then J.obj [("success", J.b true), ("brightness", J.n p)]
    else J.obj [("success", J.b false),
                ("error", J.s "Install brightness: brew install brightness")])

/-- `set_brightness` of `archLink.py` (lines 252-255); on failure the error
string is `result.get("error", "brightnessctl failed")`, supplied by the
environment as `failMsg`. -/
def arch_set_brightness (osOk : Bool) (failMsg : String) (v : J) : Option J :=
  (pyToInt v).map (fun i =>
    let p := max 1 (min 100 i)
    if osOk then J.obj [("success", J.b true), ("brightness", J.n p)]
    else J.obj [("success", J.b false), ("error", J.s failMsg)])

/-! ## Command dispatcher (`handle_command`)

Each dispatcher is modelled on an already-parsed dict message (the
`json.loads` / non-dict failure paths answer a generic error before the
dispatch chain and carry no `cmd` routing).  The result is the ordered list
of `(cmd, val)` events sent back to the originating client.  Results of the
underlying OS actions are supplied by an `Env`. -/

/-- External-world inputs of one `handle_command` invocation. -/
structure Env where
  now : Int
  cache : Cache
  sysinfo : J
  brightnessInfo : J
  brightnessSetOk : Bool
  archBrightnessFailMsg : String
  volumeInfo : J
  volumeSetOk : Bool
  muteResult : J
  nearbyDevices : J
  pairedDevices : J
  connectResult : J → J
  disconnectResult : J → J
  pairResult : J → J
  unpairResult : J → J

/-- An `error` event `{"cmd": "error", "val": {"message": msg}}`. -/
def errEvent (msg : String) : String × J :=
  ("error", J.obj [("message", J.s msg)])

/-- The Python comparison `cmd == "name"` (and the membership test
`cmd in command_handlers` against a string key): `cmd` may be any value or
`None`, and only the exact string matches. -/
def cmdIs (cmd : Option J) (name : String) : Bool :=
  match cmd with
  | some v => jeq v (J.s name)
  | none => false

/-- The shared shape of the four macOS bluetooth branches (lines
1197-1228): `address = message.get("val", {}).get("address")`; a falsy
address answers `Address required`; a non-dict `val` makes `.get` raise
`AttributeError` (caught by the generic handler); otherwise an ack with the
given status precedes the handler's response. -/
def macos_bt_command (fields : List (String × J)) (status : String)
    (result : J → J) (responseCmd : String) : List (String × J) :=
  match (getKey fields "val").getD (J.obj []) with
  | .obj valFields =>
    match getKey valFields "address" with
    | some addr =>
        if falsy addr then [errEvent "Address required"]
        else [("bluetooth_ack", J.obj [("status", J.s status), ("address", addr)]),
              (responseCmd, result addr)]
    | none => [errEvent "Address required"]
  | v => [errEvent ("'" ++ pyTypeName v ++ "' object has no attribute 'get'")]

/-- `handle_command` of `macosLink.py` (lines 1157-1235): the if/elif
dispatch chain on `message.get("cmd")`. -/
def macos_handle_command (env : Env) (fields : List (String × J)) :
    List (String × J) :=
  let cmd := getKey fields "cmd"
  if cmdIs cmd "ping" then
    [("pong", J.obj [("timestamp", J.n env.now)])]
  else if cmdIs cmd "get_metrics" then
    [("metrics", get_system_metrics env.cache env.now)]
  else if cmdIs cmd "get_system_info" then
    [("system_info", env.sysinfo)]
  else if cmdIs cmd "brightness_get" then
    [("brightness_response", env.brightnessInfo)]
  else if cmdIs cmd "brightness_set" then
    let v := (getKey fields "val").getD (J.n 100)
    let ack := ("brightness_ack", J.obj [("brightness", v), ("status", J.s "setting")])
    match macos_set_brightness env.brightnessSetOk v with
    | some r => [ack, ("brightness_response", r)]
    | none => [ack, errEvent (int_error_message v)]
  else if cmdIs cmd "volume_get" then
    [("volume_response", env.volumeInfo)]
  else if cmdIs cmd "volume_set" then
    let v := (getKey fields "val").getD (J.n 50)
    let ack := ("volume_ack", J.obj [("volume", v), ("status", J.s "setting")])
    match macos_set_volume_sync env.volumeSetOk v with
    | some r => [ack, ("volume_response", r)]
    | none => [ack, errEvent (int_error_message v)]
  else if cmdIs cmd "volume_mute" then
    [("volume_ack", J.obj [("status", J.s "toggling_mute")]),
     ("volume_response", env.muteResult)]
  else if cmdIs cmd "bluetooth_scan" then
    [("bluetooth_ack", J.obj [("status", J.s "scanning")]),
     ("bluetooth_scan_response",
      J.obj [("nearby", env.nearbyDevices), ("paired", env.pairedDevices)])]
  else if cmdIs cmd "bluetooth_connect" then
    macos_bt_command fields "connecting" env.connectResult "bluetooth_connect_response"
  else if cmdIs cmd "bluetooth_disconnect" then
    macos_bt_command fields "disconnecting" env.disconnectResult "bluetooth_disconnect_response"
  else if cmdIs cmd "bluetooth_pair" then
    macos_bt_command fields "pairing" env.pairResult "bluetooth_pair_response"
  else if cmdIs cmd "bluetooth_unpair" then
    macos_bt_command fields "unpairing" env.unpairResult "bluetooth_unpair_response"
  else
    [errEvent ("Unknown command: " ++ pyStrOpt cmd)]

/-- `handle_command` of `archLink.py` (lines 784-826): the same chain
without the bluetooth branches. -/
def arch_handle_command (env : Env) (fields : List (String × J)) :
    List (String × J) :=
  let cmd := getKey fields "cmd"
  if cmdIs cmd "ping" then
    [("pong", J.obj [("timestamp", J.n env.now)])]
  else if cmdIs cmd "get_metrics" then
    [("metrics", get_system_metrics env.cache env.now)]
  else if cmdIs cmd "get_system_info" then
    [("system_info", env.sysinfo)]
  else if cmdIs cmd "brightness_get" then
    [("brightness_response", env.brightnessInfo)]
  else if cmdIs cmd "brightness_set" then
    let v := (getKey fields "val").getD (J.n 100)
    let ack := ("brightness_ack", J.obj [("brightness", v), ("status", J.s "setting")])
    match arch_set_brightness env.brightnessSetOk env.archBrightnessFailMsg v with
    | some r => [ack, ("brightness_response", r)]
    | none => [ack, errEvent (int_error_message v)]
  else if cmdIs cmd "volume_get" then
    [("volume_response", env.volumeInfo)]
  else if cmdIs cmd "volume_set" then
    let v := (getKey fields "val").getD (J.n 50)
    let ack := ("volume_ack", J.obj [("volume", v), ("status", J.s "setting")])
    match arch_set_volume_sync env.volumeSetOk v with
    | some r => [ack, ("volume_response", r)]
    | none => [ack, errEvent (int_error_message v)]
  else if cmdIs cmd "volume_mute" then
    [("volume_ack", J.obj [("status", J.s "toggling_mute")]),
     ("volume_response", env.muteResult)]
  else
    [errEvent ("Unknown command: " ++ pyStrOpt cmd)]

/-- `handle_command` of `linker.py` (lines 402-432): any falsy `cmd`
(missing, `None`, `""`, `0`, …) answers `Missing 'cmd' field`; `ping`
answers `pong`; everything else is an unknown command. -/
def linker_handle_command (now : Int) (fields : List (String × J)) :
    List (String × J) :=
  let cmd := getKey fields "cmd"
  if (match cmd with | none => true | some v => falsy v) then
    [errEvent "Missing 'cmd' field"]
  else if cmdIs cmd "ping" then
    [("pong", J.obj [("timestamp", J.n now)])]
  else
    [errEvent ("Unknown command: " ++ pyStrOpt cmd)]

/-! ## Connection registry broadcast (`broadcast_to_all_clients`) -/

/-- `broadcast_to_all_clients` of `macosLink.py` (lines 913-921) and
`linker.py` (lines 322-327): iterate the registered clients (a Python set,
given here in iteration order), attempt delivery to each (`sendOk`), then
discard every client whose delivery failed.  Returns the clients that
received the message and the remaining registry. -/
def broadcast_to_all_clients (clients : List Nat) (sendOk : Nat → Bool) :
    List Nat × List Nat :=
  let disconnected := clients.filter (fun c => !(sendOk c))
  let delivered := clients.filter (fun c => sendOk c)
  let remaining := disconnected.foldl (fun acc c => acc.erase c) clients
  (delivered, remaining)

/-! ## Drive-change monitor (`monitor_usb_drives`) -/

/-- `get_drive_identifiers` (macosLink 1075-1076 / archLink 752-753): the
set of truthy `device_node` strings of the drive records.  `get_usb_drives`
always stores string device nodes; a missing or empty node is skipped by
the comprehension's filter. -/
def get_drive_identifiers (drives : List (List (String × J))) : Finset String :=
  (drives.filterMap (fun f =>
    match getKey f "device_node" with
    | some (J.s node) => if node == "" then none else some node
    | _ => none)).toFinset

/-- One diff cycle of `monitor_usb_drives` (macosLink lines 1107-1128,
archLink lines 763-776): given the previous and the current identifier
sets, the `change_type` of the change broadcast emitted this cycle, if any.
The monitor's state update `previous_drives = current_identifiers` happens
unconditionally after the diff. -/
def drive_monitor_step (prev curr : Finset String) : Option String :=
  if prev.Nonempty ∧ curr ≠ prev then
    if (prev \ curr).Nonempty ∨ (curr \ prev).Nonempty then
      some (if (prev \ curr).Nonempty then "removal" else "addition")
    else none
  else none

/-- The monitor loop over a sequence of polled identifier sets, starting
from the empty `previous_drives` (macosLink line 1079 / archLink line 756):
the change broadcast (if any) of each poll, in order. -/
def drive_monitor_run (polls : List (Finset String)) : List (Option String) :=
  (polls.foldl
    (fun (acc : Finset String × List (Option String)) curr =>
      (curr, acc.2 ++ [drive_monitor_step acc.1 curr]))
    (∅, [])).2

/-! ## Producer cycles (`update_and_broadcast_metrics`) -/

/-- One cycle's psutil readings for the Arch metrics producer. `battery`
is `none` when `sensors_battery()` is unavailable or falsy; `wifiResult`,
`brightnessResult` and `volumeResult` are `none` when the gathered task
returned an exception (`return_exceptions=True`). -/
structure ArchReadings where
  cpuPercent : J
  memTotal : Int
  memUsed : Int
  memPercent : Int
  diskTotal : Int
  diskUsed : Int
  diskPercent : Int
  netSent : Int
  netRecv : Int
  battery : Option (Int × Bool)
  wifiResult : Option J
  brightnessResult : Option (List (String × J))
  volumeResult : Option (List (String × J))
deriving Repr

/-- One iteration of `update_and_broadcast_metrics` of `archLink.py`
(lines 681-735): the quick cpu/memory/disk/network/battery refresh runs
unconditionally; the wifi refresh is rate-limited to every 10 s and the
brightness/volume refresh to every 5 s, each skipping a gathered result
that is an exception (`last_controls_update` is stamped regardless); only
the final broadcast is gated on a non-empty client registry.  Returns the
updated cache and the broadcasts issued. -/
def arch_metrics_cycle (clients : List Nat) (now : Int) (r : ArchReadings)
    (c : Cache) : Cache × List (String × J) :=
  let wifiDue := now - c.last_wifi_update > 10
  let controlsDue := now - c.last_controls_update > 5
  let c := { c with
    cpu_percent := r.cpuPercent,
    memory := J.obj [("total", J.n r.memTotal), ("used", J.n r.memUsed),
                     ("percent", J.n r.memPercent)],
    disk := J.obj [("total", J.n r.diskTotal), ("used", J.n r.diskUsed),
                   ("percent", J.n r.diskPercent)],
    network := J.obj [("sent", J.n r.netSent), ("received", J.n r.netRecv)] }
  let c := match r.battery with
    | some (pct, plugged) =>
        { c with battery := J.obj [("percent", J.n pct), ("plugged", J.b plugged)] }
    | none => c
  let c := if wifiDue then
      match r.wifiResult with
      | some w => { c with wifi := w, last_wifi_update := now }
      | none => c
    else c
  let c := if controlsDue then
      let c := match r.brightnessResult with
        | some bi => { c with brightness := (getKey bi "brightness").getD (J.n 0) }
        | none => c
      let c := match r.volumeResult with
        | some vi =>
            { c with volume := J.obj [("level", (getKey vi "volume").getD (J.n 0)),
                                      ("muted", (getKey vi "muted").getD (J.b false))] }
        | none => c
      { c with last_controls_update := now }
    else c
  (c, if clients.isEmpty then [] else [("metrics_update", get_system_metrics c now)])

/-- One cycle's psutil readings for the macOS metrics producer.  The basic
and disk blocks are modelled all-or-nothing (a psutil call raising midway
would leave that block's earlier fields updated; no claim distinguishes
this). -/
structure MacReadings where
  cpuPercent : J
  memTotal : Int
  memUsed : Int
  memPercent : Int
  netSent : Int
  netRecv : Int
  diskTotal : Int
  diskUsed : Int
  diskPercent : Int
  battery : Option (Int × Bool)
deriving Repr

/-- One iteration of `update_and_broadcast_metrics` of `macosLink.py`
(lines 923-993): with no connected clients the cycle sleeps 10 s and does
nothing at all; otherwise the basic (10 s), disk (30 s) and battery (60 s)
blocks refresh when due and a `metrics_update` broadcast is issued. -/
def macos_metrics_cycle (clients : List Nat) (now : Int) (r : MacReadings)
    (c : Cache) : Cache × List (String × J) :=
  if clients.isEmpty then (c, [])
  else
    let c := if now - c.last_basic_update > 10 then
        { c with
          cpu_percent := r.cpuPercent,
          memory := J.obj [("total", J.n r.memTotal), ("used", J.n r.memUsed),
                           ("percent", J.n r.memPercent)],
          network := J.obj [("sent", J.n r.netSent), ("received", J.n r.netRecv)],
          last_basic_update := now }
      else c
    let c := if now - c.last_disk_update > 30 then
        { c with
          disk := J.obj [("total", J.n r.diskTotal), ("used", J.n r.diskUsed),
                         ("percent", J.n r.diskPercent)],
          last_disk_update := now }
      else c
    let c := if now - c.last_battery_update > 60 then
        match r.battery with
        | some (pct, plugged) =>
            { c with battery := J.obj [("percent", J.n pct), ("plugged", J.b plugged)],
                     last_battery_update := now }
        | none => { c with last_battery_update := now }
      else c
    (c, if clients.isEmpty then [] else [("metrics_update", get_system_metrics c now)])

/-! ## Concrete fixtures used by witnesses and counterexamples -/

/-- A concrete metrics cache state. -/
def sampleCache : Cache where
  cpu_percent := J.n 12
  memory := J.obj [("total", J.n 16), ("used", J.n 8), ("percent", J.n 50)]
  disk := J.obj [("total", J.n 500), ("used", J.n 250), ("percent", J.n 50)]
  network := J.obj [("sent", J.n 1000), ("received", J.n 2000)]
  battery := J.obj [("percent", J.n 80), ("plugged", J.b true)]
  wifi := J.obj [("connected", J.b true)]
  brightness := J.n 70
  volume := J.obj [("level", J.n 40), ("muted", J.b false)]
  drives := J.arr []
  bluetooth := J.arr []
  last_basic_update := 0
  last_disk_update := 0
  last_battery_update := 0
  last_wifi_update := 0
  last_controls_update := 0

/-- A concrete dispatcher environment. -/
def sampleEnv : Env where
  now := 1000
  cache := sampleCache
  sysinfo := J.obj [("hostname", J.s "test-host")]
  brightnessInfo := J.obj [("brightness", J.n 70), ("available", J.b true)]
  brightnessSetOk := true
  archBrightnessFailMsg := "brightnessctl failed"
  volumeInfo := J.obj [("volume", J.n 40), ("muted", J.b false), ("available", J.b true)]
  volumeSetOk := true
  muteResult := J.obj [("success", J.b true), ("muted", J.b true)]
  nearbyDevices := J.arr []
  pairedDevices := J.arr []
  connectResult := fun addr => J.obj [("success", J.b true), ("address", addr)]
  disconnectResult := fun addr => J.obj [("success", J.b true), ("address", addr)]
  pairResult := fun addr => J.obj [("success", J.b true), ("address", addr)]
  unpairResult := fun addr => J.obj [("success", J.b true), ("address", addr)]

/-- Concrete psutil readings for the Arch metrics producer. -/
def sampleArchReadings : ArchReadings where
  cpuPercent := J.n 42
  memTotal := 16
  memUsed := 9
  memPercent := 56
  diskTotal := 500
  diskUsed := 260
  diskPercent := 52
  netSent := 1500
  netRecv := 2500
  battery := some (75, false)
  wifiResult := some (J.obj [("connected", J.b true)])
  brightnessResult := some [("brightness", J.n 65), ("available", J.b true)]
  volumeResult := some [("volume", J.n 35), ("muted", J.b false), ("available", J.b true)]

/-- Known command strings of the macOS dispatch chain, in source order. -/
def macos_known_commands : List String :=
  ["ping", "get_metrics", "get_system_info", "brightness_get", "brightness_set",
   "volume_get", "volume_set", "volume_mute", "bluetooth_scan", "bluetooth_connect",
   "bluetooth_disconnect", "bluetooth_pair", "bluetooth_unpair"]

/-- Known command strings of the Arch dispatch chain, in source order. -/
def arch_known_commands : List String :=
  ["ping", "get_metrics", "get_system_info", "brightness_get", "brightness_set",
   "volume_get", "volume_set", "volume_mute"]

/-! ## Theorems -/

/-- The comparison of a string-valued `cmd` against a dispatch label is
string equality. -/
theorem cmdIs_string (a lit : String) : cmdIs (some (J.s a)) lit = (a == lit) := rfl

/-- Claim C1 (code evaluated at the failing input): in the base `linker.py`
variant, a request from the non-loopback address `203.0.113.5` carrying the
origin `https://evil.example` — an origin that is not in the allowed set,
has no local-development prefix, and does not come from a loopback
address — is nevertheless permitted by `isAllowed` and admitted by the
WebSocket handler, because `is_origin_allowed` ends in `or True`.  The
claim (and the spec) say such a request is denied. -/
theorem linker_admits_foreign_origin :
    linker_isAllowed "203.0.113.5" "https://evil.example" LINKER_BASE_ORIGINS = true
    ∧ linker_handler_admits "https://evil.example" LINKER_BASE_ORIGINS = true
    ∧ jmem (J.s "https://evil.example") LINKER_BASE_ORIGINS = false
    ∧ py_startswith "https://evil.example" "http://localhost:" = false
    ∧ py_startswith "https://evil.example" "http://127.0.0.1:" = false
    ∧ ("203.0.113.5" == "127.0.0.1" || "203.0.113.5" == "::1") = false :=
  ⟨by decide, by decide, by decide, by decide, by decide, by decide⟩

/-- Claim C2: in the base `linker.py` variant, `is_origin_allowed` returns
`True` for every origin string and every allowed-origin state (its final
disjunct is the literal `True`), so both `isAllowed` and the WebSocket
handler's admission decision are the constant `True`, independent of the
origin header and the remote address. -/
theorem linker_admission_constant_true :
    ∀ (origin remoteAddr : String) (allowed : List J),
      linker_is_origin_allowed origin allowed = true
      ∧ linker_isAllowed remoteAddr origin allowed = true
      ∧ linker_handler_admits origin allowed = true := by
  intro origin remoteAddr allowed
  refine ⟨?_, ?_, ?_⟩ <;>
    simp [linker_is_origin_allowed, linker_isAllowed, linker_handler_admits]

/-- Claim C3 (counterexample): two `get_metrics` payloads computed from the
same untouched cache at clock readings 0 and 1 are not identical — the
payload embeds each call's own `time.time()` stamp. -/
theorem get_metrics_differs_across_instants :
    get_system_metrics sampleCache 0 ≠ get_system_metrics sampleCache 1 := by
  intro h
  simp only [get_system_metrics, J.obj.injEq, List.cons.injEq, Prod.mk.injEq,
    J.n.injEq] at h
  omega

/-- Claim C3 (amended): `get_system_metrics` is a pure function of the
cache and the clock; two calls on the same cache state agree on every field
except `timestamp`, which carries each call's own clock reading. -/
theorem get_metrics_pure_modulo_timestamp :
    ∀ (c : Cache) (t₁ t₂ : Int),
      dropTimestamp (get_system_metrics c t₁) = dropTimestamp (get_system_metrics c t₂)
      ∧ jGet (get_system_metrics c t₁) "timestamp" = some (J.n t₁) := by
  intro c t₁ t₂
  exact ⟨rfl, rfl⟩

/-- Claim C4: a drive-change broadcast is emitted on a poll iff the
previous identifier set is non-empty and the current set differs, tagged
`removal` when anything was removed (priority over additions) and
`addition` otherwise; the polling sequence
`{A,B} → {A,B} → {A} → {A,C}` yields exactly `none, none, removal,
addition`. -/
theorem drive_monitor_change_contract :
    (∀ prev curr : Finset String,
      drive_monitor_step prev curr =
        if prev.Nonempty ∧ curr ≠ prev then
          some (if (prev \ curr).Nonempty then "removal" else "addition")
        else none)
    ∧ drive_monitor_run [{"A", "B"}, {"A", "B"}, {"A"}, {"A", "C"}]
        = [none, none, some "removal", some "addition"] := by
  constructor
  · intro prev curr
    unfold drive_monitor_step
    by_cases h : prev.Nonempty ∧ curr ≠ prev
    · rw [if_pos h, if_pos h, if_pos ?_]
      rcases h with ⟨-, hneq⟩
      by_contra hc
      push_neg at hc
      rcases hc with ⟨h1, h2⟩
      rw [Finset.not_nonempty_iff_eq_empty, Finset.sdiff_eq_empty_iff_subset] at h1 h2
      exact hneq (Finset.Subset.antisymm h2 h1)
    · rw [if_neg h, if_neg h]
  · decide

/-- With a duplicate-free client list containing `k`, filtering away `k`
is `erase`. -/
theorem filter_bne_of_nodup (l : List Nat) (k : Nat) (hnd : l.Nodup) :
    l.filter (fun c => c != k) = l.erase k := by
  induction l with
  | nil => rfl
  | cons a t ih =>
    rcases List.nodup_cons.mp hnd with ⟨ha, ht⟩
    by_cases hak : a = k
    · subst hak
      simp only [List.filter, bne_self_eq_false, List.erase_cons_head]
      exact List.filter_eq_self.mpr (fun c hc => by
        have : c ≠ a := fun h => ha (h ▸ hc)
        simpa [bne_iff_ne] using this)
    · have hba : (a != k) = true := bne_iff_ne.mpr hak
      have hne : ¬(a == k) = true := by simp [hak]
      simp only [List.filter, hba, List.erase_cons_tail hne]
      rw [ih ht]

/-- With a duplicate-free client list containing `k`, the clients equal to
`k` are exactly `[k]`. -/
theorem filter_beq_of_nodup (l : List Nat) (k : Nat) (hnd : l.Nodup)
    (hk : k ∈ l) : l.filter (fun c => c == k) = [k] := by
  induction l with
  | nil => cases hk
  | cons a t ih =>
    rcases List.nodup_cons.mp hnd with ⟨ha, ht⟩
    by_cases hak : a = k
    · subst hak
      simp only [List.filter, beq_self_eq_true]
      have : t.filter (fun c => c == a) = [] :=
        List.filter_eq_nil_iff.mpr (fun c hc => by
          have : c ≠ a := fun h => ha (h ▸ hc)
          simpa using this)
      rw [this]
    · have hk' : k ∈ t := by
        cases hk with
        | head => exact absurd rfl hak
        | tail _ h => exact h
      have hba : (a == k) = false := beq_eq_false_iff_ne.mpr hak
      simp only [List.filter, hba]
      exact ih ht hk'

/-- Claim C5: broadcasting to a registry of distinct clients in which
exactly client `k` fails delivery removes exactly `k` from the registry and
delivers the message to each of the other clients, regardless of `k`'s
position in the iteration order. -/
theorem broadcast_prunes_exactly_failed (clients : List Nat) (k : Nat)
    (hnd : clients.Nodup) (hk : k ∈ clients) :
    broadcast_to_all_clients clients (fun c => c != k)
      = (clients.erase k, clients.erase k) := by
  have hdel : clients.filter (fun c => c != k) = clients.erase k :=
    filter_bne_of_nodup clients k hnd
  have hdis : clients.filter (fun c => !(c != k)) = [k] := by
    have hfun : (fun c : Nat => !(c != k)) = (fun c : Nat => c == k) := by
      funext c; simp [bne]
    rw [hfun]
    exact filter_beq_of_nodup clients k hnd hk
  simp only [broadcast_to_all_clients, hdel, hdis, List.foldl]

/-- Claim C5 witness: broadcasting to `[7, 8, 9]` where exactly client `8`
fails delivery delivers to `7` and `9` and leaves `[7, 9]` registered. -/
theorem broadcast_prunes_exactly_failed_witness :
    broadcast_to_all_clients [7, 8, 9] (fun c => c != 8) = ([7, 9], [7, 9]) := by
  have h := broadcast_prunes_exactly_failed [7, 8, 9] 8 (by decide) (by decide)
  rw [h]
  decide

/-- Claim C6 (counterexample): a `volume_set` message whose `val` is the
non-numeric string `"loud"` yields the `volume_ack` followed by an `error`
event — not a terminal `volume_response` — in both dispatcher variants,
because `set_volume`'s unguarded `int(percentage)` raises. -/
theorem volume_set_nonnumeric_breaks_two_phase :
    (macos_handle_command sampleEnv
        [("cmd", J.s "volume_set"), ("val", J.s "loud")]).map Prod.fst
      = ["volume_ack", "error"]
    ∧ (arch_handle_command sampleEnv
        [("cmd", J.s "volume_set"), ("val", J.s "loud")]).map Prod.fst
      = ["volume_ack", "error"] :=
  ⟨by decide, by decide⟩

/-- Claim C6 (amended): for every `volume_set` message whose `val`
(default 50) is convertible by `int()`, both dispatchers first send a
`volume_ack` echoing the requested value with status `"setting"` and then
exactly one terminal `volume_response` carrying the handler's outcome; when
`val` is not convertible, the ack is instead followed by exactly one
`error` event. -/
theorem volume_set_two_phase :
    ∀ (env : Env) (fields : List (String × J)),
      getKey fields "cmd" = some (J.s "volume_set") →
      (∀ i : Int, pyToInt ((getKey fields "val").getD (J.n 50)) = some i →
        macos_handle_command env fields =
          [("volume_ack", J.obj [("volume", (getKey fields "val").getD (J.n 50)),
                                 ("status", J.s "setting")]),
           ("volume_response",
            if env.volumeSetOk then
              J.obj [("success", J.b true), ("volume", J.n (max 0 (min 100 i)))]
            else J.obj [("success", J.b false), ("error", J.s "Failed")])]
        ∧ arch_handle_command env fields =
          [("volume_ack", J.obj [("volume", (getKey fields "val").getD (J.n 50)),
                                 ("status", J.s "setting")]),
           ("volume_response",
            if env.volumeSetOk then
              J.obj [("success", J.b true), ("volume", J.n (max 0 (min 100 i)))]
            else J.obj [("success", J.b false), ("error", J.s "Volume set failed")])])
      ∧ (pyToInt ((getKey fields "val").getD (J.n 50)) = none →
        (macos_handle_command env fields).map Prod.fst = ["volume_ack", "error"]
        ∧ (arch_handle_command env fields).map Prod.fst = ["volume_ack", "error"]) := by
  intro env fields hcmd
  constructor
  · intro i hi
    constructor
    · simp [macos_handle_command, hcmd, cmdIs_string, macos_set_volume_sync, hi]
    · simp [arch_handle_command, hcmd, cmdIs_string, arch_set_volume_sync, hi]
  · intro hnone
    constructor
    · simp [macos_handle_command, hcmd, cmdIs_string, macos_set_volume_sync, hnone,
        errEvent]
    · simp [arch_handle_command, hcmd, cmdIs_string, arch_set_volume_sync, hnone,
        errEvent]

/-- Claim C6 witness: `{"cmd": "volume_set", "val": 50}` produces the ack
with status `"setting"` and then the single terminal `volume_response`. -/
theorem volume_set_two_phase_witness :
    macos_handle_command sampleEnv [("cmd", J.s "volume_set"), ("val", J.n 50)]
      = [("volume_ack", J.obj [("volume", J.n 50), ("status", J.s "setting")]),
         ("volume_response", J.obj [("success", J.b true), ("volume", J.n 50)])] := by
  have h := ((volume_set_two_phase sampleEnv
    [("cmd", J.s "volume_set"), ("val", J.n 50)] (by simp [getKey])).1 50
    (by simp [getKey, pyToInt])).1
  rw [h]
  norm_num [sampleEnv, getKey, List.find?, min_def, max_def]
  rfl

/-- Claim C7: a message whose `cmd` is a string outside the recognized
command set of its variant receives exactly one terminal `error` event and
no acknowledgement; the lookup is exact and case-sensitive, and the message
is never silently dropped (`linker.py` answers `Missing 'cmd' field` for
the falsy string `""` and `Unknown command` otherwise). -/
theorem unknown_command_single_error :
    ∀ (env : Env) (now : Int) (fields : List (String × J)) (name : String),
      getKey fields "cmd" = some (J.s name) →
      (name ∉ macos_known_commands →
        macos_handle_command env fields = [errEvent ("Unknown command: " ++ name)])
      ∧ (name ∉ arch_known_commands →
        arch_handle_command env fields = [errEvent ("Unknown command: " ++ name)])
      ∧ (name ≠ "ping" →
        linker_handle_command now fields =
          [errEvent (if name = "" then "Missing 'cmd' field"
                     else "Unknown command: " ++ name)]) := by
  intro env now fields name hcmd
  refine ⟨?_, ?_, ?_⟩
  · intro hmem
    simp only [macos_known_commands, List.mem_cons, List.not_mem_nil, or_false,
      not_or] at hmem
    obtain ⟨h1, h2, h3, h4, h5, h6, h7, h8, h9, h10, h11, h12, h13⟩ := hmem
    simp [macos_handle_command, hcmd, cmdIs_string, pyStrOpt, pyStr,
      h1, h2, h3, h4, h5, h6, h7, h8, h9, h10, h11, h12, h13]
  · intro hmem
    simp only [arch_known_commands, List.mem_cons, List.not_mem_nil, or_false,
      not_or] at hmem
    obtain ⟨h1, h2, h3, h4, h5, h6, h7, h8⟩ := hmem
    simp [arch_handle_command, hcmd, cmdIs_string, pyStrOpt, pyStr,
      h1, h2, h3, h4, h5, h6, h7, h8]
  · intro hping
    by_cases hempty : name = ""
    · subst hempty
      simp [linker_handle_command, hcmd, falsy]
    · simp [linker_handle_command, hcmd, cmdIs_string, falsy, pyStrOpt, pyStr,
        hempty, hping]

/-- Claim C7 witness: `{"cmd": "bogus"}` receives exactly one `error` event
from each dispatcher variant. -/
theorem unknown_command_single_error_witness :
    macos_handle_command sampleEnv [("cmd", J.s "bogus")]
      = [errEvent "Unknown command: bogus"]
    ∧ arch_handle_command sampleEnv [("cmd", J.s "bogus")]
      = [errEvent "Unknown command: bogus"]
    ∧ linker_handle_command 1000 [("cmd", J.s "bogus")]
      = [errEvent "Unknown command: bogus"] := by
  have h := unknown_command_single_error sampleEnv 1000 [("cmd", J.s "bogus")]
    "bogus" rfl
  refine ⟨h.1 (by decide), h.2.1 (by decide), ?_⟩
  have h3 := h.2.2 (by decide)
  simpa using h3

/-- Claim C8: `fetch_allowed_origins` leaves the allowed-origin state
exactly unchanged when the fetch or parse fails, when the document is not a
dict, and when the dict lacks the `"origins"` key; whenever the state does
change, the response was a dict with an `"origins"` list and the new state
is that list unioned with the built-in baseline (deduplicated for the macOS
variant, local-dev origins appended for the linker variant). -/
theorem origins_refresh_atomicity :
    ∀ prior : List J,
      macos_fetch_allowed_origins prior none = prior
      ∧ (∀ fields, getKey fields "origins" = none →
          macos_fetch_allowed_origins prior (some (J.obj fields)) = prior)
      ∧ (∀ v, (∀ fields, v ≠ J.obj fields) →
          macos_fetch_allowed_origins prior (some v) = prior)
      ∧ (∀ resp, macos_fetch_allowed_origins prior resp ≠ prior →
          ∃ fields xs, resp = some (J.obj fields)
            ∧ getKey fields "origins" = some (J.arr xs)
            ∧ macos_fetch_allowed_origins prior resp
                = pySetList (xs ++ CONFIG_ALLOWED_ORIGINS.map J.s))
      ∧ linker_fetch_allowed_origins prior none = prior
      ∧ (∀ fields, getKey fields "origins" = none →
          linker_fetch_allowed_origins prior (some (J.obj fields)) = prior)
      ∧ (∀ v, (∀ fields, v ≠ J.obj fields) →
          linker_fetch_allowed_origins prior (some v) = prior) := by
  intro prior
  refine ⟨rfl, ?_, ?_, ?_, rfl, ?_, ?_⟩
  · intro fields h
    simp [macos_fetch_allowed_origins, h]
  · intro v hv
    cases v <;> simp [macos_fetch_allowed_origins]
    exact absurd rfl (hv _)
  · intro resp hne
    match resp with
    | none => exact absurd rfl hne
    | some (J.null) => exact absurd rfl hne
    | some (J.b _) => exact absurd rfl hne
    | some (J.n _) => exact absurd rfl hne
    | some (J.s _) => exact absurd rfl hne
    | some (J.arr _) => exact absurd rfl hne
    | some (J.obj fields) =>
      match hkey : getKey fields "origins" with
      | none => exact absurd (by simp [macos_fetch_allowed_origins, hkey]) hne
      | some (J.null) => exact absurd (by simp [macos_fetch_allowed_origins, hkey]) hne
      | some (J.b _) => exact absurd (by simp [macos_fetch_allowed_origins, hkey]) hne
      | some (J.n _) => exact absurd (by simp [macos_fetch_allowed_origins, hkey]) hne
      | some (J.s _) => exact absurd (by simp [macos_fetch_allowed_origins, hkey]) hne
      | some (J.obj _) => exact absurd (by simp [macos_fetch_allowed_origins, hkey]) hne
      | some (J.arr xs) =>
        match hall : xs.all hashable with
        | false =>
          exact absurd (by simp [macos_fetch_allowed_origins, hkey, hall]) hne
        | true =>
          exact ⟨fields, xs, rfl, hkey,
            by simp [macos_fetch_allowed_origins, hkey, hall]⟩
  · intro fields h
    simp [linker_fetch_allowed_origins, h]
  · intro v hv
    cases v <;> simp [linker_fetch_allowed_origins]
    exact absurd rfl (hv _)

/-- Claim C8 witness: with a prior allowed set, a missing-key document, a
non-dict document, and a failed fetch all leave the set unchanged. -/
theorem origins_refresh_atomicity_witness :
    macos_fetch_allowed_origins [J.s "https://kept.example"]
        (some (J.obj [("other", J.n 1)])) = [J.s "https://kept.example"]
    ∧ macos_fetch_allowed_origins [J.s "https://kept.example"]
        (some (J.arr [])) = [J.s "https://kept.example"]
    ∧ linker_fetch_allowed_origins [J.s "https://kept.example"]
        (some (J.obj [("other", J.n 1)])) = [J.s "https://kept.example"] := by
  have h := origins_refresh_atomicity [J.s "https://kept.example"]
  exact ⟨h.2.1 _ rfl, h.2.2.1 _ (fun _ hx => J.noConfusion hx),
    h.2.2.2.2.2.1 _ rfl⟩

/-- Claim C9 (counterexample): an Arch metrics-producer cycle that begins
with an empty client registry still refreshes the Metrics Cache — the cpu
field changes from 12 to the fresh reading 42 — although it broadcasts
nothing. -/
theorem arch_refresh_with_empty_registry :
    (arch_metrics_cycle [] 100 sampleArchReadings sampleCache).1.cpu_percent = J.n 42
    ∧ sampleCache.cpu_percent = J.n 12
    ∧ (arch_metrics_cycle [] 100 sampleArchReadings sampleCache).2 = [] :=
  ⟨rfl, rfl, rfl⟩

/-- Claim C9 (amended): a producer cycle that begins with an empty client
registry emits no broadcast, and the macOS metrics producer then performs
no refresh work at all; the Arch metrics producer, however, refreshes its
cpu/memory/disk/network cache fields every cycle regardless of the
registry — only its broadcast is gated. -/
theorem idle_backoff_status :
    (∀ (now : Int) (r : MacReadings) (c : Cache),
      macos_metrics_cycle [] now r c = (c, []))
    ∧ (∀ (now : Int) (r : ArchReadings) (c : Cache),
      (arch_metrics_cycle [] now r c).2 = [])
    ∧ (∀ (now : Int) (r : ArchReadings) (c : Cache),
      (arch_metrics_cycle [] now r c).1.cpu_percent = r.cpuPercent
      ∧ (arch_metrics_cycle [] now r c).1.network
          = J.obj [("sent", J.n r.netSent), ("received", J.n r.netRecv)]) := by
  refine ⟨?_, ?_, ?_⟩
  · intro now r c
    rfl
  · intro now r c
    rfl
  · intro now r c
    rcases r with ⟨cpu, mt, mu, mp, dt, du, dp, ns, nr, batt, wifi, bri, vol⟩
    rcases batt with _ | ⟨p, pl⟩ <;> rcases wifi with _ | w <;>
      rcases bri with _ | bi <;> rcases vol with _ | vi <;>
      refine ⟨?_, ?_⟩ <;>
      simp only [arch_metrics_cycle, apply_ite (Cache.cpu_percent),
        apply_ite (Cache.network), ite_self]

/-- Claim C10: `run_command` never propagates an exception — every
execution outcome is mapped to a structured dict: a completed run yields
`success = (returncode == 0)` with the stripped stdout/stderr and the exit
code; a timeout, a missing binary, or any other internal failure yields
`success: false` with an `error` field giving the reason.  `success` is
true exactly on a zero-exit completion, `error` is absent exactly on a
completion, and a cache-less call of the macOS variant is the plain
runner. -/
theorem run_command_structured_totality :
    (∀ (cmd : List String) (t : Nat) (out err : String) (rc : Int),
      arch_run_command cmd t (.completed out err rc)
        = { success := rc == 0, stdout := some (py_strip out), stderr := some (py_strip err),
            returncode := some rc, error := none }
      ∧ macos_run_command cmd t (.completed out err rc)
        = { success := rc == 0, stdout := some (py_strip out), stderr := some (py_strip err),
            returncode := some rc, error := none })
    ∧ (∀ (cmd : List String) (t : Nat),
      arch_run_command cmd t .timedOut
        = { success := false, stdout := none, stderr := none, returncode := none,
            error := some ("Command timeout (" ++ toString t ++ "s)") }
      ∧ macos_run_command cmd t .timedOut
        = { success := false, stdout := some "", stderr := some "",
            returncode := none, error := some ("Timeout (" ++ toString t ++ "s)") }
      ∧ arch_run_command cmd t .notFound
        = { success := false, stdout := none, stderr := none, returncode := none,
            error := some ("Command not found: " ++ cmd.headD "") }
      ∧ macos_run_command cmd t .notFound
        = { success := false, stdout := some "", stderr := some "",
            returncode := none, error := some ("Command not found: " ++ cmd.headD "") })
    ∧ (∀ (cmd : List String) (t : Nat) (msg : String),
      arch_run_command cmd t (.failed msg)
        = { success := false, stdout := none, stderr := none, returncode := none,
            error := some msg }
      ∧ macos_run_command cmd t (.failed msg)
        = { success := false, stdout := some "", stderr := some "",
            returncode := none, error := some msg })
    ∧ (∀ (cmd : List String) (t : Nat) (o : ExecOutcome),
      ((arch_run_command cmd t o).success = true ↔ ∃ out err, o = .completed out err 0)
      ∧ ((macos_run_command cmd t o).success = true ↔ ∃ out err, o = .completed out err 0)
      ∧ ((arch_run_command cmd t o).error = none ↔ ∃ out err rc, o = .completed out err rc)
      ∧ ((macos_run_command cmd t o).error = none ↔ ∃ out err rc, o = .completed out err rc))
    ∧ (∀ (cache : List (String × CmdResult × Int)) (now : Int) (cmd : List String)
        (t : Nat) (o : ExecOutcome),
      macos_run_command_cached cache now none cmd t o = (macos_run_command cmd t o, cache)) := by
  refine ⟨fun cmd t out err rc => ⟨rfl, rfl⟩,
    fun cmd t => ⟨rfl, rfl, rfl, rfl⟩,
    fun cmd t msg => ⟨rfl, rfl⟩, ?_, ?_⟩
  · intro cmd t o
    refine ⟨?_, ?_, ?_, ?_⟩ <;>
      cases o <;> simp [arch_run_command, macos_run_command]
  · intro cache now cmd t o
    cases o <;> rfl

end RoturLink
